import Mathlib

/-!
Verification of `src/libNode/FallbackBlockProcessing.cpp` (Zilliqa fallback
consensus processing) against its natural-language specification.

The development shallowly embeds the three functions of the file —
`Node::UpdateDSCommittee`, `Node::VerifyFallbackBlockCoSignature` and
`Node::ProcessFallbackBlock` — as pure Lean functions.  Mutable node state
(`m_mediator.m_DSCommittee`, transaction bookkeeping, consensus counters,
the temporary account-store snapshot) is threaded explicitly through a
`NodeState` record; read-only context (`m_mediator.m_ds->m_shards`, the
current epoch, the committed state root, the outcome of the readiness
wait, `LOOKUP_NODE_MODE`) lives in an `Env` record; the external
collaborators (the message codec, Schnorr multi-signature primitives and
the fixed-width serializers, all out of this core's scope) are supplied as
an `Externals` record of oracle functions, so that theorems quantifying
over all oracles express independence from cryptographic outcomes.
-/

namespace ZilliqaFallback

/-- A Schnorr public key.  The cryptographic structure is external to this
core, so a key is abstracted to an opaque identifier. -/
structure PubKey where
  keyId : Nat
deriving DecidableEq

/-- A network peer (`Peer`): IP address and listening port. -/
structure Peer where
  ipAddress : Nat
  listenPortHost : Nat
deriving DecidableEq

/-- One entry of a shard member list: the C++ `std::tuple<PubKey, Peer, uint16_t>`
whose components are read through `SHARD_NODE_PUBKEY` and `SHARD_NODE_PEER`;
the third tuple slot is never read by this file, but is kept for fidelity. -/
structure ShardNode where
  pubkey : PubKey
  peer : Peer
  reserved : Nat
deriving DecidableEq

/-- One entry of the DS committee deque: the C++ `std::pair<PubKey, Peer>`
pushed by `UpdateDSCommittee`. -/
structure Member where
  first : PubKey
  second : Peer
deriving DecidableEq

/-- The projection that `UpdateDSCommittee` applies to a non-leader shard
node: `{std::get<SHARD_NODE_PUBKEY>(shardNode), std::get<SHARD_NODE_PEER>(shardNode)}`. -/
def shardNodeToMember (n : ShardNode) : Member :=
  ⟨n.pubkey, n.peer⟩

/-- The body of the loop of `Node::UpdateDSCommittee` (lines 47-61): a leader
match is `push_front`, every other shard node is `push_back`. -/
def dsCommitteeStep (leaderPubKey : PubKey) (leaderNetworkInfo : Peer)
    (dsCommittee : List Member) (shardNode : ShardNode) : List Member :=
  if shardNode.pubkey = leaderPubKey ∧ shardNode.peer = leaderNetworkInfo then
    ⟨leaderPubKey, leaderNetworkInfo⟩ :: dsCommittee
  else
    dsCommittee ++ [shardNodeToMember shardNode]

/-- The list computed by `Node::UpdateDSCommittee` for a given shard member
list: the committee is cleared and rebuilt by one pass over the shard. -/
def updateDSCommitteeList (shard : List ShardNode) (leaderPubKey : PubKey)
    (leaderNetworkInfo : Peer) : List Member :=
  shard.foldl (dsCommitteeStep leaderPubKey leaderNetworkInfo) []

/-- On a stretch of shard nodes none of which equals the leader identity, the
rebuild loop only appends, in order. -/
theorem foldl_dsCommitteeStep_no_match (leaderPubKey : PubKey)
    (leaderNetworkInfo : Peer) (l : List ShardNode) (acc : List Member)
    (h : ∀ n ∈ l, ¬(n.pubkey = leaderPubKey ∧ n.peer = leaderNetworkInfo)) :
    l.foldl (dsCommitteeStep leaderPubKey leaderNetworkInfo) acc
      = acc ++ l.map shardNodeToMember := by
  induction l generalizing acc with
  | nil => simp
  | cons hd tl ih =>
    have hhd : ¬(hd.pubkey = leaderPubKey ∧ hd.peer = leaderNetworkInfo) :=
      h hd (List.mem_cons_self hd tl)
    have htl : ∀ n ∈ tl, ¬(n.pubkey = leaderPubKey ∧ n.peer = leaderNetworkInfo) :=
      fun n hn => h n (List.mem_cons_of_mem hd hn)
    simp only [List.foldl_cons, List.map_cons]
    rw [dsCommitteeStep, if_neg hhd, ih _ htl, List.append_assoc]
    rfl

/-- C1: For every shard member list in which the leader identity
`(leaderKey, leaderAddr)` occurs exactly once (the list is a prefix `pre`
with no match, the matching node `L`, and a suffix `post` with no match —
the data model assumes shard member identities are unique), the committee
rebuilt by `Node::UpdateDSCommittee` is the leader followed by all other
shard members in their original relative order. -/
theorem updateDSCommittee_leader_front_order (leaderPubKey : PubKey)
    (leaderNetworkInfo : Peer) (pre post : List ShardNode) (L : ShardNode)
    (hL : L.pubkey = leaderPubKey ∧ L.peer = leaderNetworkInfo)
    (hpre : ∀ n ∈ pre, ¬(n.pubkey = leaderPubKey ∧ n.peer = leaderNetworkInfo))
    (hpost : ∀ n ∈ post, ¬(n.pubkey = leaderPubKey ∧ n.peer = leaderNetworkInfo)) :
    updateDSCommitteeList (pre ++ L :: post) leaderPubKey leaderNetworkInfo
      = ⟨leaderPubKey, leaderNetworkInfo⟩ :: (pre ++ post).map shardNodeToMember := by
  unfold updateDSCommitteeList
  rw [List.foldl_append, foldl_dsCommitteeStep_no_match _ _ _ _ hpre,
    List.nil_append, List.foldl_cons]
  rw [show dsCommitteeStep leaderPubKey leaderNetworkInfo (pre.map shardNodeToMember) L
        = ⟨leaderPubKey, leaderNetworkInfo⟩ :: pre.map shardNodeToMember from by
      rw [dsCommitteeStep, if_pos hL]]
  rw [foldl_dsCommitteeStep_no_match _ _ _ _ hpost, List.map_append]
  rfl

/-- Witness for C1, the spec's own example: shard `[A, B, C, D]` with leader
`C` rebuilds to `[C, A, B, D]`. -/
theorem updateDSCommittee_leader_front_order_witness :
    updateDSCommitteeList
        [⟨⟨1⟩, ⟨1, 1⟩, 0⟩, ⟨⟨2⟩, ⟨2, 2⟩, 0⟩, ⟨⟨3⟩, ⟨3, 3⟩, 0⟩, ⟨⟨4⟩, ⟨4, 4⟩, 0⟩]
        ⟨3⟩ ⟨3, 3⟩
      = [⟨⟨3⟩, ⟨3, 3⟩⟩, ⟨⟨1⟩, ⟨1, 1⟩⟩, ⟨⟨2⟩, ⟨2, 2⟩⟩, ⟨⟨4⟩, ⟨4, 4⟩⟩] := by
  have h := updateDSCommittee_leader_front_order ⟨3⟩ ⟨3, 3⟩
    [⟨⟨1⟩, ⟨1, 1⟩, 0⟩, ⟨⟨2⟩, ⟨2, 2⟩, 0⟩] [⟨⟨4⟩, ⟨4, 4⟩, 0⟩] ⟨⟨3⟩, ⟨3, 3⟩, 0⟩
    (by decide) (by decide) (by decide)
  simpa using h

/-- A Schnorr signature value (`Signature`); opaque to this core, it is only
serialized into the signed payload or handed to the external verifier. -/
structure Signature where
  sigId : Nat
deriving DecidableEq

/-- The header of a fallback block (`FallbackBlockHeader`): the fields this
file reads through its getters. -/
structure FallbackBlockHeader where
  fallbackEpochNo : Nat
  shardId : Nat
  leaderConsensusId : Nat
  leaderPubKey : PubKey
  leaderNetworkInfo : Peer
  stateRootHash : Nat
deriving DecidableEq

/-- A decoded fallback block: header, the two co-signing bitmaps `B1`/`B2`
and the two round signatures `CS1`/`CS2`. -/
structure FallbackBlock where
  header : FallbackBlockHeader
  B1 : List Bool
  B2 : List Bool
  CS1 : Signature
  CS2 : Signature
deriving DecidableEq

/-- Read-only context of the node while a fallback block is processed:
the shard directory `m_mediator.m_ds->m_shards`, the current epoch
`m_mediator.m_currentEpochNum`, the committed state root returned by
`AccountStore::GetInstance().GetStateRootHash()`, the outcome of
`CheckState(PROCESS_FALLBACKBLOCK)`, whether `m_state` reaches
`WAITING_FALLBACKBLOCK` within the `FALLBACK_EXTRA_TIME` bounded wait
(decided by concurrent state transitions, so an input of the model), and
the `LOOKUP_NODE_MODE` build flag. -/
structure Env where
  shards : List (List ShardNode)
  currentEpochNum : Nat
  stateRootHash : Nat
  checkStateOK : Bool
  waitReachesWaitingFallback : Bool
  lookupNodeMode : Bool
deriving DecidableEq

/-- The mutable node state that `ProcessFallbackBlock` may touch: the DS
committee deque, the per-epoch processed-transaction map, locally created
transactions, the buffered microblock-consensus artifacts, the temporary
account-store snapshot (`InitTemp` resets it to the committed root), the
consensus counters reset in lookup mode, and flags recording that PoW was
initiated and that the next fallback timeout was scheduled. -/
structure NodeState where
  dsCommittee : List Member
  processedTransactions : List (Nat × Nat)
  createdTransactions : List Nat
  microblockConsensusBuffer : List Nat
  accountStoreTemp : Nat
  consensusID : Nat
  consensusLeaderID : Nat
  powInitiated : Bool
  fallbackTimeoutScheduled : Bool
deriving DecidableEq

/-- External collaborators, out of this core's scope, supplied as oracles:
the message codec (`Messenger::GetNodeFallbackBlock`), multi-signature
aggregation (`MultiSig::AggregatePubKeys`, returning `none` for the C++
null pointer), collective-signature verification
(`Schnorr::GetInstance().Verify`), and the fixed-width serializers used to
rebuild the signed payload (`FallbackBlockHeader::Serialize`,
`Signature::Serialize`, `BitVector::SetBitVector`). -/
structure Externals where
  getNodeFallbackBlock : List Nat → Nat → Option FallbackBlock
  aggregatePubKeys : List PubKey → Option PubKey
  schnorrVerify : List Nat → Signature → PubKey → Bool
  serializeHeader : FallbackBlockHeader → List Nat
  serializeSignature : Signature → List Nat
  setBitVector : List Bool → List Nat

/-- Modelled from the spec: `ConsensusCommon::NumForConsensus` lives outside
the provided sources (`src/libConsensus`), so the quorum function is taken
from the spec's words — the canonical Byzantine consensus-sizing rule of
"more than two-thirds of the total member count", with the spec's anchor
`requiredQuorum(4) = 3`; that is the ceiling of `2 * n / 3`. -/
def NumForConsensus (n : Nat) : Nat :=
  (2 * n + 2) / 3

/-- The signer keys collected by the loop of lines 87-95: walk the shard in
index order and keep the public key of every member whose `B2` bit is set
(the loop runs only after `|B2|` was checked equal to the shard size, so
pairing the two lists positionally is exact). -/
def collectSignerKeys (shard : List ShardNode) (B2 : List Bool) : List PubKey :=
  ((shard.zip B2).filter (fun nb => nb.2)).map (fun nb => nb.1.pubkey)

/-- The signed payload rebuilt at lines 111-115: the serialized header,
then `CS1`, then the `B1` bitmap, at consecutive fixed-width offsets. -/
def reconstructSignedMessage (ext : Externals) (fallbackblock : FallbackBlock) :
    List Nat :=
  ext.serializeHeader fallbackblock.header
    ++ ext.serializeSignature fallbackblock.CS1
    ++ ext.setBitVector fallbackblock.B1

/-- Shallow embedding of `Node::VerifyFallbackBlockCoSignature` (lines 64-128).
The C++ indexes `m_shards[shard_id]` without any bounds check; an
out-of-range `shard_id` is undefined behaviour, modelled as `none`.  All
defined outcomes are `some b`. -/
def VerifyFallbackBlockCoSignature (env : Env) (ext : Externals)
    (fallbackblock : FallbackBlock) : Option Bool :=
  match env.shards.get? fallbackblock.header.shardId with
  | none => none
  | some shard =>
    if shard.length ≠ fallbackblock.B2.length then
      some false
    else
      let keys := collectSignerKeys shard fallbackblock.B2
      if keys.length ≠ NumForConsensus fallbackblock.B2.length then
        some false
      else
        match ext.aggregatePubKeys keys with
        | none => some false
        | some aggregatedKey =>
          some (ext.schnorrVerify (reconstructSignedMessage ext fallbackblock)
            fallbackblock.CS2 aggregatedKey)

/-- When the bitmap has exactly one bit per shard member, the signer count
collected by the loop is the number of set bits of `B2`. -/
theorem collectSignerKeys_length (shard : List ShardNode) (B2 : List Bool)
    (h : shard.length = B2.length) :
    (collectSignerKeys shard B2).length = B2.count true := by
  induction shard generalizing B2 with
  | nil =>
    cases B2 with
    | nil => rfl
    | cons b bs => simp at h
  | cons n ns ih =>
    cases B2 with
    | nil => simp at h
    | cons b bs =>
      have h' : ns.length = bs.length := by simpa using h
      cases b <;>
        simp [collectSignerKeys, List.count_cons, ← ih bs h', collectSignerKeys]

/-- C2: a fallback block whose `B2` bitmap flags fewer signers than the
quorum for its shard's size is rejected by the co-signature verifier for
every behaviour of the external cryptographic primitives (the result does
not consult `ext`), hence regardless of whether the signature itself would
verify. -/
theorem verifyFallback_subquorum_rejected (env : Env) (ext : Externals)
    (fallbackblock : FallbackBlock) (shard : List ShardNode)
    (hshard : env.shards.get? fallbackblock.header.shardId = some shard)
    (hk : fallbackblock.B2.count true < NumForConsensus shard.length) :
    VerifyFallbackBlockCoSignature env ext fallbackblock = some false := by
  unfold VerifyFallbackBlockCoSignature
  rw [hshard]
  by_cases hlen : shard.length = fallbackblock.B2.length
  · have hcount := collectSignerKeys_length shard fallbackblock.B2 hlen
    have hne : (collectSignerKeys shard fallbackblock.B2).length
        ≠ NumForConsensus fallbackblock.B2.length := by
      rw [hcount, ← hlen]; omega
    simp [hlen, hne]
  · simp [hlen]

/-- Witness for C2: a shard of four members with only two flagged signers
(quorum is three) is rejected. -/
theorem verifyFallback_subquorum_rejected_witness :
    VerifyFallbackBlockCoSignature
        ⟨[[⟨⟨1⟩, ⟨1, 1⟩, 0⟩, ⟨⟨2⟩, ⟨2, 2⟩, 0⟩, ⟨⟨3⟩, ⟨3, 3⟩, 0⟩, ⟨⟨4⟩, ⟨4, 4⟩, 0⟩]],
          5, 7, true, true, false⟩
        ⟨fun _ _ => none, fun _ => some ⟨0⟩, fun _ _ _ => true,
          fun _ => [], fun _ => [], fun _ => []⟩
        ⟨⟨5, 0, 1, ⟨2⟩, ⟨2, 2⟩, 7⟩, [true, true, false, false],
          [true, true, false, false], ⟨0⟩, ⟨0⟩⟩
      = some false :=
  verifyFallback_subquorum_rejected _ _ _
    [⟨⟨1⟩, ⟨1, 1⟩, 0⟩, ⟨⟨2⟩, ⟨2, 2⟩, 0⟩, ⟨⟨3⟩, ⟨3, 3⟩, 0⟩, ⟨⟨4⟩, ⟨4, 4⟩, 0⟩]
    rfl (by decide)

/-- C9: the quorum gate of the verifier is an exact-equality check
(`count != NumForConsensus(B2.size())`), so a bitmap flagging strictly more
signers than the quorum for `|B2|` is also rejected, for every behaviour of
the external cryptographic primitives. -/
theorem verifyFallback_overquorum_rejected (env : Env) (ext : Externals)
    (fallbackblock : FallbackBlock) (shard : List ShardNode)
    (hshard : env.shards.get? fallbackblock.header.shardId = some shard)
    (hk : NumForConsensus fallbackblock.B2.length < fallbackblock.B2.count true) :
    VerifyFallbackBlockCoSignature env ext fallbackblock = some false := by
  unfold VerifyFallbackBlockCoSignature
  rw [hshard]
  by_cases hlen : shard.length = fallbackblock.B2.length
  · have hcount := collectSignerKeys_length shard fallbackblock.B2 hlen
    have hne : (collectSignerKeys shard fallbackblock.B2).length
        ≠ NumForConsensus fallbackblock.B2.length := by
      rw [hcount]; omega
    simp [hlen, hne]
  · simp [hlen]

/-- Witness for C9: a shard of four members with all four flagged (quorum is
exactly three) is rejected. -/
theorem verifyFallback_overquorum_rejected_witness :
    VerifyFallbackBlockCoSignature
        ⟨[[⟨⟨1⟩, ⟨1, 1⟩, 0⟩, ⟨⟨2⟩, ⟨2, 2⟩, 0⟩, ⟨⟨3⟩, ⟨3, 3⟩, 0⟩, ⟨⟨4⟩, ⟨4, 4⟩, 0⟩]],
          5, 7, true, true, false⟩
        ⟨fun _ _ => none, fun _ => some ⟨0⟩, fun _ _ _ => true,
          fun _ => [], fun _ => [], fun _ => []⟩
        ⟨⟨5, 0, 1, ⟨2⟩, ⟨2, 2⟩, 7⟩, [true, true, true, true],
          [true, true, true, true], ⟨0⟩, ⟨0⟩⟩
      = some false :=
  verifyFallback_overquorum_rejected _ _ _
    [⟨⟨1⟩, ⟨1, 1⟩, 0⟩, ⟨⟨2⟩, ⟨2, 2⟩, 0⟩, ⟨⟨3⟩, ⟨3, 3⟩, 0⟩, ⟨⟨4⟩, ⟨4, 4⟩, 0⟩]
    rfl (by decide)

/-- C4: a fallback block whose `B2` bitmap length differs from the member
count of the shard named by its `shardId` is rejected at the first check of
the verifier; the oracle record `ext` is universally quantified and the
result never consults it, so no public-key aggregation is attempted. -/
theorem verifyFallback_bitmap_size_mismatch_rejected (env : Env)
    (fallbackblock : FallbackBlock) (shard : List ShardNode)
    (hshard : env.shards.get? fallbackblock.header.shardId = some shard)
    (hlen : shard.length ≠ fallbackblock.B2.length) :
    ∀ ext : Externals,
      VerifyFallbackBlockCoSignature env ext fallbackblock = some false := by
  intro ext
  unfold VerifyFallbackBlockCoSignature
  rw [hshard]
  simp [hlen]

/-- Witness for C4: a shard of four members against a three-bit bitmap is
rejected, under an aggregation oracle that always fails (it is never
consulted). -/
theorem verifyFallback_bitmap_size_mismatch_rejected_witness :
    VerifyFallbackBlockCoSignature
        ⟨[[⟨⟨1⟩, ⟨1, 1⟩, 0⟩, ⟨⟨2⟩, ⟨2, 2⟩, 0⟩, ⟨⟨3⟩, ⟨3, 3⟩, 0⟩, ⟨⟨4⟩, ⟨4, 4⟩, 0⟩]],
          5, 7, true, true, false⟩
        ⟨fun _ _ => none, fun _ => none, fun _ _ _ => true,
          fun _ => [], fun _ => [], fun _ => []⟩
        ⟨⟨5, 0, 1, ⟨2⟩, ⟨2, 2⟩, 7⟩, [true, true, true],
          [true, true, true], ⟨0⟩, ⟨0⟩⟩
      = some false :=
  verifyFallback_bitmap_size_mismatch_rejected _ _
    [⟨⟨1⟩, ⟨1, 1⟩, 0⟩, ⟨⟨2⟩, ⟨2, 2⟩, 0⟩, ⟨⟨3⟩, ⟨3, 3⟩, 0⟩, ⟨⟨4⟩, ⟨4, 4⟩, 0⟩]
    (by rfl) (by decide) _

/-- Shallow embedding of `Node::UpdateDSCommittee` (lines 39-62) as a state
update: under the committee lock, `m_mediator.m_DSCommittee` is cleared and
rebuilt from `m_mediator.m_ds->m_shards[shard_id]`; no other node state is
read or written.  (The C++ indexes the shard vector without a bounds check;
the single caller checks the bound first, and `getD` with an empty default
models the access.) -/
def UpdateDSCommittee (env : Env) (shard_id : Nat) (leaderPubKey : PubKey)
    (leaderNetworkInfo : Peer) (st : NodeState) : NodeState :=
  let rebuilt :=
    updateDSCommitteeList (env.shards.getD shard_id []) leaderPubKey leaderNetworkInfo
  { st with dsCommittee := rebuilt }

/-- The post-commit cleanup of lines 254-274: in full-participation mode,
erase the processed transactions of the current epoch, clear created
transactions and the microblock-consensus buffer, reset the temporary
account-store snapshot to the committed state and initiate PoW; in
`LOOKUP_NODE_MODE`, reset the consensus counters to zero instead. -/
def postFallbackCleanup (env : Env) (st : NodeState) : NodeState :=
  if env.lookupNodeMode then
    { st with consensusID := 0, consensusLeaderID := 0 }
  else
    { st with
        processedTransactions :=
          st.processedTransactions.filter (fun kv => kv.1 ≠ env.currentEpochNum),
        createdTransactions := [],
        microblockConsensusBuffer := [],
        accountStoreTemp := env.stateRootHash,
        powInitiated := true }

/-- Shallow embedding of `Node::ProcessFallbackBlock` (lines 130-285).
Returns the C++ boolean result paired with the node state after the call;
`none` models the undefined behaviour the verifier would exhibit on an
out-of-range shard index (proved unreachable from this entry point).  The
readiness gate rejects exactly when `CheckState(PROCESS_FALLBACKBLOCK)`
fails and the bounded wait on `cv_fallbackBlock` times out before `m_state`
becomes `WAITING_FALLBACKBLOCK`. -/
def ProcessFallbackBlock (env : Env) (ext : Externals) (st : NodeState)
    (message : List Nat) (cur_offset : Nat) : Option (Bool × NodeState) :=
  if ¬env.checkStateOK ∧ ¬env.waitReachesWaitingFallback then
    some (false, st)
  else
    match ext.getNodeFallbackBlock message cur_offset with
    | none => some (false, st)
    | some fallbackblock =>
      if fallbackblock.header.fallbackEpochNo ≠ env.currentEpochNum then
        some (false, st)
      else if env.shards.length ≤ fallbackblock.header.shardId then
        some (false, st)
      else
        let shard := env.shards.getD fallbackblock.header.shardId []
        if shard.length ≤ fallbackblock.header.leaderConsensusId then
          some (false, st)
        else if ¬ shard.any (fun n =>
            decide (n.pubkey = fallbackblock.header.leaderPubKey
              ∧ n.peer = fallbackblock.header.leaderNetworkInfo)) then
          some (false, st)
        else if env.stateRootHash ≠ fallbackblock.header.stateRootHash then
          some (false, st)
        else
          match VerifyFallbackBlockCoSignature env ext fallbackblock with
          | none => none
          | some false => some (false, st)
          | some true =>
            some (true,
              { postFallbackCleanup env
                  (UpdateDSCommittee env fallbackblock.header.shardId
                    fallbackblock.header.leaderPubKey
                    fallbackblock.header.leaderNetworkInfo st) with
                fallbackTimeoutScheduled := true })

/-- C7: `Node::UpdateDSCommittee` is a function of the shard directory and
the leader identity only — it clears the committee before rebuilding and
never reads it — so applying it twice in succession leaves the node in the
same state as applying it once. -/
theorem updateDSCommittee_idempotent (env : Env) (shard_id : Nat)
    (leaderPubKey : PubKey) (leaderNetworkInfo : Peer) (st : NodeState) :
    UpdateDSCommittee env shard_id leaderPubKey leaderNetworkInfo
        (UpdateDSCommittee env shard_id leaderPubKey leaderNetworkInfo st)
      = UpdateDSCommittee env shard_id leaderPubKey leaderNetworkInfo st :=
  rfl

/-- The conjunction of the pre-commit checks of `ProcessFallbackBlock`
(steps 1-8 of the spec): the readiness gate passes, the message decodes,
the epoch matches, the shard exists, the leader consensus id is in range,
the leader identity appears in the shard, the state root matches, and the
co-signature verifies. -/
def allFallbackChecksPass (env : Env) (ext : Externals) (message : List Nat)
    (cur_offset : Nat) : Prop :=
  (env.checkStateOK = true ∨ env.waitReachesWaitingFallback = true)
  ∧ ∃ fallbackblock : FallbackBlock,
      ext.getNodeFallbackBlock message cur_offset = some fallbackblock
      ∧ fallbackblock.header.fallbackEpochNo = env.currentEpochNum
      ∧ fallbackblock.header.shardId < env.shards.length
      ∧ fallbackblock.header.leaderConsensusId
          < (env.shards.getD fallbackblock.header.shardId []).length
      ∧ (env.shards.getD fallbackblock.header.shardId []).any (fun n =>
          decide (n.pubkey = fallbackblock.header.leaderPubKey
            ∧ n.peer = fallbackblock.header.leaderNetworkInfo)) = true
      ∧ env.stateRootHash = fallbackblock.header.stateRootHash
      ∧ VerifyFallbackBlockCoSignature env ext fallbackblock = some true

/-- The verifier signals the undefined shard access (`none`) exactly when
`shardId` is out of range of the shard directory; every in-range call has a
defined boolean outcome. -/
theorem verifyFallbackBlockCoSignature_isSome (env : Env) (ext : Externals)
    (fallbackblock : FallbackBlock)
    (h : fallbackblock.header.shardId < env.shards.length) :
    (VerifyFallbackBlockCoSignature env ext fallbackblock).isSome = true := by
  have hs := List.get?_eq_get (l := env.shards) h
  unfold VerifyFallbackBlockCoSignature
  rw [hs]
  set shard := env.shards.get ⟨fallbackblock.header.shardId, h⟩
  by_cases h1 : shard.length ≠ fallbackblock.B2.length
  · simp [h1]
  · by_cases h2 : (collectSignerKeys shard fallbackblock.B2).length
        ≠ NumForConsensus fallbackblock.B2.length
    · simp [h1, h2]
    · cases hagg : ext.aggregatePubKeys (collectSignerKeys shard fallbackblock.B2) with
      | none => simp [h1, h2, hagg]
      | some aggregatedKey => simp [h1, h2, hagg]

theorem verifyFallbackBlockCoSignature_eq_none_iff (env : Env)
    (ext : Externals) (fallbackblock : FallbackBlock) :
    VerifyFallbackBlockCoSignature env ext fallbackblock = none
      ↔ env.shards.length ≤ fallbackblock.header.shardId := by
  constructor
  · intro h
    by_contra hc
    push_neg at hc
    have hsome := verifyFallbackBlockCoSignature_isSome env ext fallbackblock hc
    rw [h] at hsome
    simp at hsome
  · intro h
    unfold VerifyFallbackBlockCoSignature
    rw [List.get?_eq_none.mpr h]

/-- Case analysis of `ProcessFallbackBlock`: the call either passes every
pre-commit check and returns `true` with the committed state, or fails one
of them and returns `false` with the state it was given.  In particular the
result is never the undefined marker `none`. -/
theorem processFallbackBlock_cases (env : Env) (ext : Externals)
    (st : NodeState) (message : List Nat) (cur_offset : Nat) :
    (allFallbackChecksPass env ext message cur_offset
        ∧ ∃ st', ProcessFallbackBlock env ext st message cur_offset
            = some (true, st'))
    ∨ (¬ allFallbackChecksPass env ext message cur_offset
        ∧ ProcessFallbackBlock env ext st message cur_offset
            = some (false, st)) := by
  unfold ProcessFallbackBlock
  by_cases hready : ¬env.checkStateOK ∧ ¬env.waitReachesWaitingFallback
  · refine Or.inr ⟨?_, by rw [if_pos hready]⟩
    rintro ⟨hok, -⟩
    rcases hok with h | h
    · exact hready.1 h
    · exact hready.2 h
  · rw [if_neg hready]
    have hready' : env.checkStateOK = true ∨ env.waitReachesWaitingFallback = true := by
      rcases not_and_or.mp hready with hc | hw
      · exact Or.inl (not_not.mp hc)
      · exact Or.inr (not_not.mp hw)
    cases heq : ext.getNodeFallbackBlock message cur_offset with
    | none =>
      refine Or.inr ⟨?_, rfl⟩
      rintro ⟨-, blk, hblk, -⟩
      rw [heq] at hblk
      exact Option.noConfusion hblk
    | some fallbackblock =>
      simp only []
      by_cases hepoch : fallbackblock.header.fallbackEpochNo ≠ env.currentEpochNum
      · refine Or.inr ⟨?_, by rw [if_pos hepoch]⟩
        rintro ⟨-, blk, hblk, hep, -⟩
        rw [heq] at hblk
        obtain rfl := Option.some.inj hblk
        exact hepoch hep
      · rw [if_neg hepoch]
        by_cases hshard : env.shards.length ≤ fallbackblock.header.shardId
        · refine Or.inr ⟨?_, by rw [if_pos hshard]⟩
          rintro ⟨-, blk, hblk, -, hsh, -⟩
          rw [heq] at hblk
          obtain rfl := Option.some.inj hblk
          omega
        · rw [if_neg hshard]
          by_cases hcons : (env.shards.getD fallbackblock.header.shardId []).length
              ≤ fallbackblock.header.leaderConsensusId
          · refine Or.inr ⟨?_, by rw [if_pos hcons]⟩
            rintro ⟨-, blk, hblk, -, -, hco, -⟩
            rw [heq] at hblk
            obtain rfl := Option.some.inj hblk
            omega
          · rw [if_neg hcons]
            by_cases hleader : ¬ (env.shards.getD fallbackblock.header.shardId []).any
                (fun n => decide (n.pubkey = fallbackblock.header.leaderPubKey
                  ∧ n.peer = fallbackblock.header.leaderNetworkInfo))
            · refine Or.inr ⟨?_, by rw [if_pos hleader]⟩
              rintro ⟨-, blk, hblk, -, -, -, hle, -⟩
              rw [heq] at hblk
              obtain rfl := Option.some.inj hblk
              exact hleader hle
            · rw [if_neg hleader]
              by_cases hroot : env.stateRootHash ≠ fallbackblock.header.stateRootHash
              · refine Or.inr ⟨?_, by rw [if_pos hroot]⟩
                rintro ⟨-, blk, hblk, -, -, -, -, hrt, -⟩
                rw [heq] at hblk
                obtain rfl := Option.some.inj hblk
                exact hroot hrt
              · rw [if_neg hroot]
                cases hver : VerifyFallbackBlockCoSignature env ext fallbackblock with
                | none =>
                  exact absurd
                    ((verifyFallbackBlockCoSignature_eq_none_iff env ext
                      fallbackblock).mp hver) hshard
                | some b =>
                  cases b with
                  | false =>
                    refine Or.inr ⟨?_, rfl⟩
                    rintro ⟨-, blk, hblk, -, -, -, -, -, hvt⟩
                    rw [heq] at hblk
                    obtain rfl := Option.some.inj hblk
                    rw [hver] at hvt
                    simp at hvt
                  | true =>
                    refine Or.inl ⟨⟨hready', fallbackblock, heq, not_ne_iff.mp hepoch,
                      Nat.lt_of_not_le hshard, Nat.lt_of_not_le hcons,
                      not_not.mp hleader, not_ne_iff.mp hroot, hver⟩, _, rfl⟩

/-- C3: `ProcessFallbackBlock` returns `true` exactly when the readiness
gate, decode, epoch, shard-existence, leader-index, leader-membership,
state-root and co-signature checks all pass, and every `false` return
leaves the node state (committee, transaction bookkeeping, consensus
counters, ledger snapshot) exactly as it was: reconstitution is the single
point of no return. -/
theorem processFallbackBlock_true_iff_checks_and_no_partial_state
    (env : Env) (ext : Externals) (st : NodeState) (message : List Nat)
    (cur_offset : Nat) :
    ((∃ st', ProcessFallbackBlock env ext st message cur_offset = some (true, st'))
        ↔ allFallbackChecksPass env ext message cur_offset)
      ∧ ∀ st', ProcessFallbackBlock env ext st message cur_offset
          = some (false, st') → st' = st := by
  rcases processFallbackBlock_cases env ext st message cur_offset with
    ⟨hpass, st', hres⟩ | ⟨hfail, hres⟩
  · refine ⟨⟨fun _ => hpass, fun _ => ⟨st', hres⟩⟩, ?_⟩
    intro st'' h
    rw [hres] at h
    simp at h
  · refine ⟨⟨?_, fun hpass => absurd hpass hfail⟩, ?_⟩
    · rintro ⟨st', h⟩
      rw [hres] at h
      simp at h
    · intro st'' h
      rw [hres] at h
      simp at h
      exact h.symm

/-- C5: a fallback block whose header state root differs from the node's
current ledger state root is rejected — the handler returns `false` with
the node state untouched — no matter how the remaining checks or the
co-signature would fare (the check precedes co-signature verification, and
every earlier rejection also returns `false`). -/
theorem processFallbackBlock_stateroot_mismatch_rejected (env : Env)
    (ext : Externals) (st : NodeState) (message : List Nat) (cur_offset : Nat)
    (fallbackblock : FallbackBlock)
    (hdec : ext.getNodeFallbackBlock message cur_offset = some fallbackblock)
    (hroot : env.stateRootHash ≠ fallbackblock.header.stateRootHash) :
    ProcessFallbackBlock env ext st message cur_offset = some (false, st) := by
  rcases processFallbackBlock_cases env ext st message cur_offset with
    ⟨⟨-, blk, hblk, -, -, -, -, hrt, -⟩, -⟩ | ⟨-, hres⟩
  · rw [hdec] at hblk
    obtain rfl := Option.some.inj hblk
    exact absurd hrt hroot
  · exact hres

/-- C6: when `CheckState(PROCESS_FALLBACKBLOCK)` fails and `m_state` never
becomes `WAITING_FALLBACKBLOCK` within the `FALLBACK_EXTRA_TIME` grace
period, the handler returns `false` and the node state — in particular the
DS committee — is exactly the state it started from. -/
theorem processFallbackBlock_readiness_timeout_no_side_effects (env : Env)
    (ext : Externals) (st : NodeState) (message : List Nat) (cur_offset : Nat)
    (hcheck : env.checkStateOK = false)
    (hwait : env.waitReachesWaitingFallback = false) :
    ProcessFallbackBlock env ext st message cur_offset = some (false, st) := by
  rcases processFallbackBlock_cases env ext st message cur_offset with
    ⟨⟨hready, -⟩, -⟩ | ⟨-, hres⟩
  · rcases hready with h | h
    · rw [hcheck] at h
      exact Bool.noConfusion h
    · rw [hwait] at h
      exact Bool.noConfusion h
  · exact hres

/-- C10: the co-signature verifier indexes the shard directory with the
block's `shardId` without any bounds check — its outcome is undefined
(`none`) exactly when `shardId` is out of range, and defined for every
in-range `shardId` — while the ingestion handler checks the bound before
calling it, so a call through `ProcessFallbackBlock` never reaches the
undefined access. -/
theorem verifyFallback_shardId_bounds (env : Env) (ext : Externals)
    (fallbackblock : FallbackBlock) (st : NodeState) (message : List Nat)
    (cur_offset : Nat) :
    (VerifyFallbackBlockCoSignature env ext fallbackblock = none
        ↔ env.shards.length ≤ fallbackblock.header.shardId)
      ∧ ProcessFallbackBlock env ext st message cur_offset ≠ none := by
  refine ⟨verifyFallbackBlockCoSignature_eq_none_iff env ext fallbackblock, ?_⟩
  intro h
  rcases processFallbackBlock_cases env ext st message cur_offset with
    ⟨-, st', hres⟩ | ⟨-, hres⟩ <;> rw [hres] at h <;> exact Option.noConfusion h

/-- The condition variable on which the readiness gate of
`Node::ProcessFallbackBlock` performs its bounded wait (line 145:
`cv_fallbackBlock.wait_for` under `m_MutexCVFallbackBlock`). -/
def readinessGateCondVariable : String := "cv_fallbackBlock"

/-- The condition variable notified after the committee reconstitution at
commit (line 252: `cv_fallbackBlock.notify_all()`). -/
def commitBroadcastCondVariable : String := "cv_fallbackBlock"

/-- C8 counterexample: the claim says the commit-time broadcast uses a
condition variable distinct from the readiness gate's; in the source both
the bounded wait and the commit notification name the same member,
`cv_fallbackBlock`, so the two are one variable. -/
theorem fallback_commit_cv_not_distinct :
    commitBroadcastCondVariable = readinessGateCondVariable :=
  rfl

/-- C8 amended: the commit-time broadcast reuses the readiness gate's
condition variable — both are `cv_fallbackBlock` — so the notification
releases threads blocked in the readiness gate rather than a separate
fallback-completed channel. -/
theorem fallback_commit_cv_same_as_readiness_gate :
    commitBroadcastCondVariable = readinessGateCondVariable
      ∧ commitBroadcastCondVariable = "cv_fallbackBlock"
      ∧ readinessGateCondVariable = "cv_fallbackBlock" :=
  ⟨rfl, rfl, rfl⟩

/-- Concrete four-member shard used by the remaining witnesses. -/
def shardW : List ShardNode :=
  [⟨⟨1⟩, ⟨1, 1⟩, 0⟩, ⟨⟨2⟩, ⟨2, 2⟩, 0⟩, ⟨⟨3⟩, ⟨3, 3⟩, 0⟩, ⟨⟨4⟩, ⟨4, 4⟩, 0⟩]

/-- Concrete fallback block: epoch 5, shard 0, leader index 1, leader
`(k2, p2)`, state root 7, three of the four members co-signed. -/
def fallbackBlockW : FallbackBlock :=
  ⟨⟨5, 0, 1, ⟨2⟩, ⟨2, 2⟩, 7⟩, [true, true, true, false],
    [true, true, true, false], ⟨0⟩, ⟨0⟩⟩

/-- A fallback block naming shard 3 in a directory that only has shard 0. -/
def fallbackBlockOutOfRangeW : FallbackBlock :=
  ⟨⟨5, 3, 1, ⟨2⟩, ⟨2, 2⟩, 7⟩, [true, true, true, false],
    [true, true, true, false], ⟨0⟩, ⟨0⟩⟩

/-- Concrete environment: one shard, epoch 5, committed state root 7,
ready for fallback processing, full-participation mode. -/
def envW : Env := ⟨[shardW], 5, 7, true, true, false⟩

/-- `envW` with a committed state root that disagrees with the block's. -/
def envRootMismatchW : Env := ⟨[shardW], 5, 8, true, true, false⟩

/-- `envW` with the readiness check failing and the bounded wait timing
out. -/
def envNotReadyW : Env := ⟨[shardW], 5, 7, false, false, false⟩

/-- Concrete externals: decoding yields `fallbackBlockW` and the crypto
primitives accept. -/
def extW : Externals :=
  ⟨fun _ _ => some fallbackBlockW, fun _ => some ⟨0⟩, fun _ _ _ => true,
    fun _ => [], fun _ => [], fun _ => []⟩

/-- Concrete starting node state with nonempty bookkeeping. -/
def stW : NodeState := ⟨[], [(5, 11)], [12], [13], 9, 6, 6, false, false⟩

/-- Witness for C3: the concrete passing input makes every check succeed,
so the handler returns `true`. -/
theorem processFallbackBlock_true_iff_checks_and_no_partial_state_witness :
    ∃ st', ProcessFallbackBlock envW extW stW [0] 0 = some (true, st') :=
  (processFallbackBlock_true_iff_checks_and_no_partial_state
      envW extW stW [0] 0).1.mpr
    ⟨Or.inl rfl, fallbackBlockW, rfl, rfl, by decide, by decide, by decide,
      rfl, by decide⟩

/-- Witness for C5: the same block against a node whose committed root is 8
instead of 7 is rejected with the state unchanged. -/
theorem processFallbackBlock_stateroot_mismatch_rejected_witness :
    ProcessFallbackBlock envRootMismatchW extW stW [0] 0 = some (false, stW) :=
  processFallbackBlock_stateroot_mismatch_rejected envRootMismatchW extW stW
    [0] 0 fallbackBlockW rfl (by decide)

/-- Witness for C6: with the readiness check failing and the wait timing
out, the handler rejects and keeps the state. -/
theorem processFallbackBlock_readiness_timeout_no_side_effects_witness :
    ProcessFallbackBlock envNotReadyW extW stW [0] 0 = some (false, stW) :=
  processFallbackBlock_readiness_timeout_no_side_effects envNotReadyW extW stW
    [0] 0 rfl rfl

/-- Witness for C10: shard id 3 is out of range of the one-shard directory,
so the directly called verifier hits the undefined access. -/
theorem verifyFallback_shardId_bounds_witness :
    VerifyFallbackBlockCoSignature envW extW fallbackBlockOutOfRangeW = none :=
  (verifyFallback_shardId_bounds envW extW fallbackBlockOutOfRangeW stW
      [0] 0).1.mpr (by decide)

end ZilliqaFallback
